import Mathlib

/-!
Shallow embedding of the siren music bot's core (src/song.py, src/song_cache.py,
src/song_queue.py) together with proofs about the behaviour of its operations.

Conventions used throughout:
* Python `None` is modelled by `Option.none`; a Python dict is modelled by an
  insertion-ordered association list.
* The nondeterministic scheduling of worker processes is factored out: one
  iteration of a worker's infinite loop is modelled as a step function on an
  explicit state, and the yt-dlp resolver is an opaque function parameter.
* Blocking primitives (`Event.wait`, `Queue.get(block=True)`) are modelled in a
  single-thread view: a wait that no further code of the modelled call can
  satisfy is reported as a distinguished `blocked` outcome.
* Exceptions that a modelled function can raise are made explicit, either as an
  `Except` result or as a distinguished constructor of the result type.
-/

namespace Siren

/-- A track reference: an opaque url string (`song_cache.py` only ever handles
strings, thanks to the `isinstance(url, str)` guard). -/
abbrev Url := String

/-- One entry of the yt-dlp `formats` list; only the keys read by
`Song.__init__` (src/song.py, lines 49-54) are modelled: `acodec` (read with
`f['acodec']`, assumed present) and `url` (read with `f.get("url")`). -/
structure Format where
  acodec : String
  url : Option String
deriving DecidableEq, Repr

/-- The yt-dlp metadata dictionary, restricted to the keys that
`Song.__init__` reads (src/song.py, lines 20-44). A missing key is `none`. -/
structure Metadict where
  title : Option String
  uploader : Option String
  uploader_url : Option String
  webpage_url : Option String
  duration : Option Nat
  thumbnail : Option String
  formats : Option (List Format)
deriving DecidableEq, Repr

/-- The dictionary with no keys, as returned by `dict()` in src/song.py. -/
def emptyMetadict : Metadict := ⟨none, none, none, none, none, none, none⟩

/-- What `ytdl.extract_info(url, download=False)` can produce, as handled by
`get_metadata_from_url` (src/song.py, lines 93-105): a raised
`yt_dlp.DownloadError`, a metadata dict, or a list of dicts. -/
inductive YtdlOutcome where
  | downloadError
  | info (d : Metadict)
  | infoList (l : List Metadict)
deriving DecidableEq, Repr

/-- The opaque external resolver: what yt-dlp answers for each (stripped) url. -/
abbrev Ytdl := Url → YtdlOutcome

/-- `get_metadata_from_url` (src/song.py, lines 79-108): strip the url, query
yt-dlp; a `DownloadError` is caught and turned into the empty dict; a list
result is converted to its first element (empty dict if the list is empty). -/
def get_metadata_from_url (ytdl : Ytdl) (url : Url) : Metadict :=
  match ytdl url.trim with
  | .downloadError => emptyMetadict
  | .info d => d
  | .infoList [] => emptyMetadict
  | .infoList (d :: _) => d

/-- Python's `f"{n:02}"`: decimal, left-padded with `0` to width two. -/
def pad2 (n : Nat) : String :=
  if n < 10 then "0" ++ toString n else toString n

/-- `parse_duration` (src/song.py, lines 111-129). The duration is modelled as
a natural number of seconds (`ceil` of a non-negative yt-dlp duration). -/
def parse_duration : Option Nat → Option String
  | none => none
  | some d =>
    let minutes := d / 60
    let seconds := d % 60
    let hours := minutes / 60
    let minutes := minutes % 60
    let days := hours / 24
    let hours := hours % 24
    let s1 := if 0 < days then pad2 days ++ ":" else ""
    let s2 := if 0 < hours ∨ 0 < days then pad2 hours ++ ":" else ""
    some (s1 ++ s2 ++ pad2 minutes ++ ":" ++ pad2 seconds)

/-- The fields that `Song.__init__` (src/song.py, lines 8-54) assigns. A field
of a `Song` constructed from an empty metadata dict is `none`. -/
structure Song where
  title : Option String
  uploader : Option String
  uploader_url : Option String
  url : Option String
  duration : Option Nat
  thumbnail : Option String
  duration_formatted : Option String
  stream : Option String
deriving DecidableEq, Repr

/-- The `for f in formats` loop of `Song.__init__` (src/song.py, lines 49-54):
the first format whose `acodec` does not lower-case to `"none"` supplies the
stream url (possibly absent); if every format is skipped, the stream stays
absent. -/
def findStream : List Format → Option String
  | [] => none
  | f :: fs => if f.acodec.toLower == "none" then findStream fs else f.url

/-- `Song(url)` for a non-`None` url (src/song.py, lines 8-54): fetch the
metadata, copy the informational fields, and scan `formats` for a stream. -/
def Song.ofUrl (ytdl : Ytdl) (url : Url) : Song :=
  let d := get_metadata_from_url ytdl url
  { title := d.title
    uploader := d.uploader
    uploader_url := d.uploader_url
    url := d.webpage_url
    duration := d.duration
    thumbnail := d.thumbnail
    duration_formatted := parse_duration d.duration
    stream :=
      match d.formats with
      | none => none
      | some fs => findStream fs }

/-! ### Association lists standing in for Python dicts -/

/-- Membership / indexing of a Python dict: the value stored for a key. -/
def lookupA {α β : Type} [DecidableEq α] : List (α × β) → α → Option β
  | [], _ => none
  | (k, v) :: rest, a => if k = a then some v else lookupA rest a

/-- Assignment `d[k] = v` on a Python dict: overwrite in place or append. -/
def insertA {α β : Type} [DecidableEq α] : List (α × β) → α → β → List (α × β)
  | [], a, b => [(a, b)]
  | (k, v) :: rest, a, b =>
    if k = a then (a, b) :: rest else (k, v) :: insertA rest a b

theorem lookupA_insertA_self {α β : Type} [DecidableEq α]
    (l : List (α × β)) (a : α) (b : β) : lookupA (insertA l a b) a = some b := by
  induction l with
  | nil => simp [insertA, lookupA]
  | cons kv rest ih =>
    obtain ⟨k, v⟩ := kv
    by_cases h : k = a
    · simp [insertA, lookupA, h]
    · simp [insertA, lookupA, h, ih]

/-! ### The metadata cache (src/song_cache.py) -/

/-- How the underlying `Connection.send` behaves for a given delivery pipe:
it may succeed, raise `BrokenPipeError` (read end gone), or raise some other
exception (for instance `OSError("handle is closed")` on a locally closed
connection, which is not a `BrokenPipeError`). -/
inductive ChanHealth where
  | healthy
  | brokenPipe
  | otherError
deriving DecidableEq, Repr

/-- A delivery pipe (`multiprocessing.connection.Connection`), identified by an
id and carrying the behaviour of its `send`. -/
structure Chan where
  id : Nat
  health : ChanHealth
deriving DecidableEq, Repr

/-- A value transmitted over a pipe or stored in the shared cache: Python
`None` (`Option.none`, the tombstone) or a `Song` object (possibly one without
a stream). -/
abbrev SentVal := Option Song

/-- `safe_pipe_send` (src/song_cache.py, lines 171-183): `pipe.send(obj)` in a
`try` that catches exactly `BrokenPipeError` (returning `False`); on success
the function falls through and returns Python `None` (modelled `Option.none`);
any other exception escapes, modelled as `Except.error`. -/
def safe_pipe_send (pipe : Chan) (_obj : SentVal) : Except String (Option Bool) :=
  match pipe.health with
  | .healthy => .ok none
  | .brokenPipe => .ok (some false)
  | .otherError => .error "exception other than BrokenPipeError escapes pipe.send"

/-- The shared mutable state that one cache worker observes in one iteration of
`SongCache._wait_for_songs` (src/song_cache.py, lines 69-125): the two request
queues, the availability event, and the shared `{url: Song-or-None}` cache. -/
structure WorkerState where
  priorityQueue : List (Url × Chan)
  urlQueue : List Url
  songAvailable : Bool
  cache : List (Url × SentVal)
deriving DecidableEq, Repr

/-- Which of the three branches of a worker iteration ran: a priority request
was dequeued, a background request was dequeued, or the worker cleared the
availability event and parked on it. -/
inductive StepSource where
  | prio
  | background
  | parked
deriving DecidableEq, Repr

/-- Everything observable about one (non-raising) worker iteration. `sent` is
the `safe_pipe_send` attempt made, if any (pipe and transmitted object);
`resolverCalled` is the url passed to `Song(url)`, if the resolver ran. -/
structure StepResult where
  state : WorkerState
  source : StepSource
  resolverCalled : Option Url
  sent : Option (Chan × SentVal)
deriving DecidableEq, Repr

/-- The value `SongCache._wait_for_songs` stores in the cache for a freshly
extracted url (src/song_cache.py, lines 116-120): `None` when the extracted
song has no stream, the song itself otherwise. -/
def cacheEntry (ytdl : Ytdl) (url : Url) : SentVal :=
  if (Song.ofUrl ytdl url).stream = none then none else some (Song.ofUrl ytdl url)

/-- Lines 102-125 of src/song_cache.py: handling of one dequeued url. On a
cache hit the stored value is sent back on the pipe of a priority request (a
background hit does nothing); on a miss `Song(url)` runs, the result is cached
(`None` if it has no stream), and for a priority request the freshly built
`Song` object itself is sent back. -/
def handleUrl (ytdl : Ytdl) (s : WorkerState) (src : StepSource)
    (url : Url) (pipe : Option Chan) : Except String StepResult :=
  match lookupA s.cache url with
  | some v =>
    match pipe with
    | some p =>
      match safe_pipe_send p v with
      | .error e => .error e
      | .ok _ => .ok ⟨s, src, none, some (p, v)⟩
    | none => .ok ⟨s, src, none, none⟩
  | none =>
    let song := Song.ofUrl ytdl url
    let entry : SentVal := if song.stream = none then none else some song
    let s' : WorkerState := { s with cache := insertA s.cache url entry }
    match pipe with
    | some p =>
      match safe_pipe_send p (some song) with
      | .error e => .error e
      | .ok _ => .ok ⟨s', src, some url, some (p, some song)⟩
    | none => .ok ⟨s', src, some url, none⟩

/-- One iteration of the `while True` loop of `SongCache._wait_for_songs`
(src/song_cache.py, lines 76-125): try the priority queue non-blocking, then
the background url queue non-blocking, and if both are empty clear the
availability event and park on it. -/
def SongCache.stepWorker (ytdl : Ytdl) (s : WorkerState) : Except String StepResult :=
  match s.priorityQueue with
  | (url, pipe) :: rest =>
    handleUrl ytdl { s with priorityQueue := rest } .prio url (some pipe)
  | [] =>
    match s.urlQueue with
    | url :: rest =>
      handleUrl ytdl { s with urlQueue := rest } .background url none
    | [] => .ok ⟨{ s with songAvailable := false }, .parked, none, none⟩

/-- `SongCache.extract_cache` (src/song_cache.py, lines 128-148): ignore a
non-list or empty argument, otherwise append every url to the background queue
and set the availability event. -/
def SongCache.extract_cache (s : WorkerState) (urls : List Url) : WorkerState :=
  if urls = [] then s
  else { s with urlQueue := s.urlQueue ++ urls, songAvailable := true }

/-- `SongCache.prioritized_extract_cache` (src/song_cache.py, lines 151-168)
for a string url: append the request to the priority queue and set the
availability event. -/
def SongCache.prioritized_extract_cache (s : WorkerState) (url : Url)
    (pipe : Chan) : WorkerState :=
  { s with priorityQueue := s.priorityQueue ++ [(url, pipe)], songAvailable := true }

/-- The state built by `SongCache.__init__` (src/song_cache.py, lines 24-66)
when construction succeeds: empty cache, empty queues, cleared availability
event, and the list of names of the started worker processes. -/
structure SongCacheInit where
  cache : List (Url × SentVal)
  priorityQueue : List (Url × Chan)
  urlQueue : List Url
  songAvailable : Bool
  pool : List String
deriving DecidableEq, Repr

/-- `SongCache.__init__` (src/song_cache.py, lines 24-66): a `pool_size`
below 1 raises `ValueError` before anything is created; otherwise the shared
state is set up and `pool_size` worker processes named `Cache-i` are created
and started. -/
def SongCache.init (pool_size : Int) : Except String SongCacheInit :=
  if pool_size < 1 then .error "pool_size is too low."
  else
    .ok { cache := []
          priorityQueue := []
          urlQueue := []
          songAvailable := false
          pool := (List.range pool_size.toNat).map (fun i => "Cache-" ++ toString i) }

/-- The number of worker processes that a construction attempt started: none
when construction raised, all of the pool otherwise. -/
def startedWorkers : Except String SongCacheInit → Nat
  | .error _ => 0
  | .ok c => c.pool.length

/-! ### The per-session queue and player (src/song_queue.py) -/

/-- A Python value that can end up in the url slot of an element of
`SongQueue.songs`. Normally it is a url string; `toggle_shuffle`
(src/song_queue.py, line 212) however passes `self.next_song` — which is
`None` or a whole `(url, Song)` tuple — as the url argument of `push`. -/
inductive UrlVal where
  | str (u : Url)
  | pyNone
  | pair (u : UrlVal) (m : Option Song)
deriving DecidableEq, Repr

/-- The opaque `Song(url)` constructor as seen from `song_queue.py`: every
value in a url slot resolves to some `Song` object (an unplayable one has
`stream = none`). -/
abbrev Resolver := UrlVal → Song

/-- The mutable state of one `SongQueue` (src/song_queue.py, lines 14-66)
together with the class-level `global_cache` dict (line 12), which only ever
holds valid (stream-carrying) songs. -/
structure QState where
  songs : List (UrlVal × Option Song)
  songAvailable : Bool
  currentSong : Option (UrlVal × Option Song)
  nextSong : Option (UrlVal × Option Song)
  loopSong : Bool
  shuffle : Bool
  globalCache : List (UrlVal × Song)
deriving DecidableEq, Repr

/-- `SongQueue.push` (src/song_queue.py, lines 96-99): append the pair and set
the availability event unconditionally. -/
def SongQueue.push (s : QState) (url : UrlVal) (metadata : Option Song) : QState :=
  { s with songs := s.songs ++ [(url, metadata)], songAvailable := true }

/-- `SongQueue.clear` (src/song_queue.py, lines 188-191): clear the
availability event and drop every pending pair. -/
def SongQueue.clear (s : QState) : QState :=
  { s with songAvailable := false, songs := [] }

/-- `SongQueue.extract_song` (src/song_queue.py, lines 156-185): consult the
global cache unless `recache` is set; on a miss run `Song(url)`; an invalid
song (no stream) yields Python `None` and writes nothing, a valid one is
cached and returned. The possibly-updated cache is returned alongside. -/
def SongQueue.extract_song (resolver : Resolver) (cache : List (UrlVal × Song))
    (url : UrlVal) (recache : Bool) :
    Option (UrlVal × Song) × List (UrlVal × Song) :=
  let cached : Option Song := if recache then none else lookupA cache url
  match cached with
  | some song => (some (url, song), cache)
  | none =>
    let song := resolver url
    if song.stream = none then (none, cache)
    else (some (url, song), insertA cache url song)

/-- `list.pop(idx)`: the element at `idx` and the list without it, or `none`
when the index is out of range (Python raises `IndexError` there). -/
def popIdx {α : Type} : List α → Nat → Option (α × List α)
  | [], _ => none
  | x :: xs, 0 => some (x, xs)
  | x :: xs, n + 1 => (popIdx xs n).map (fun p => (p.1, x :: p.2))

/-- How one call of `SongQueue.next` ends: a returned `None`, a returned
`(url, song)` pair, an everlasting block on the availability event (single
thread view), the `IndexError`/`ValueError` of popping an empty list, or the
`TypeError` of unpacking the `None` that `extract_song` returns for a
tombstoned reference (src/song_queue.py, line 145). -/
inductive NextResult where
  | retNone
  | found (url : UrlVal) (song : Option Song)
  | blocked
  | indexError
  | typeError
deriving DecidableEq, Repr

/-- Result and post-state of one `SongQueue.next` call. For the crashing
outcomes the state is the one at the moment the exception is raised. -/
structure NextOut where
  result : NextResult
  state : QState
deriving DecidableEq, Repr

/-- `SongQueue.next` (src/song_queue.py, lines 102-148). `pick` resolves the
nondeterminism of `randint(0, len(songs) - 1)` in shuffle mode: the drawn
index is `pick % len(songs)`, which ranges over exactly the values `randint`
can return. The body's `while` loop never actually repeats: `extract_song`
either returns a valid pair (the loop guard fails) or returns `None`, whose
unpacking raises `TypeError`. -/
def SongQueue.next (resolver : Resolver) (pick : Nat)
    (block extract : Bool) (s : QState) : NextOut :=
  if s.songAvailable = false then
    if block = false then ⟨.retNone, s⟩
    else ⟨.blocked, s⟩
  else
    let idx := if s.shuffle then pick % s.songs.length else 0
    match popIdx s.songs idx with
    | none => ⟨.indexError, s⟩
    | some ((url, song), songs') =>
      let fl := if songs' = [] then false else s.songAvailable
      let s1 := { s with songs := songs', songAvailable := fl }
      if extract = false then ⟨.found url song, s1⟩
      else
        match SongQueue.extract_song resolver s1.globalCache url false with
        | (some (u2, sng), cache') =>
          ⟨.found u2 (some sng), { s1 with globalCache := cache' }⟩
        | (none, cache') => ⟨.typeError, { s1 with globalCache := cache' }⟩

/-- `SongQueue.__delitem__` (src/song_queue.py, lines 81-85): clear the
availability event first when exactly one element is present, then delete the
element (an out-of-range index raises `IndexError` after the event was already
touched; the list is then unchanged). -/
def SongQueue.delitem (s : QState) (idx : Nat) : QState :=
  let fl := if s.songs.length = 1 then false else s.songAvailable
  match popIdx s.songs idx with
  | none => { s with songAvailable := fl }
  | some (_, songs') => { s with songAvailable := fl, songs := songs' }

/-- The Python value `self.next_song` that `toggle_shuffle` hands to `push` as
the url argument: `None` itself, or the whole `(url, Song)` tuple. -/
def pyTupleOf : Option (UrlVal × Option Song) → UrlVal
  | none => .pyNone
  | some (u, m) => .pair u m

/-- `SongQueue.toggle_shuffle` (src/song_queue.py, lines 207-213): flip the
flag, push the current `next_song` value onto the queue (as a url!), and clear
the `next_song` slot. -/
def SongQueue.toggle_shuffle (s : QState) : QState :=
  let s1 := { s with shuffle := !s.shuffle }
  let s2 := SongQueue.push s1 (pyTupleOf s1.nextSong) none
  { s2 with nextSong := none }

/-- `SongQueue.toggle_song_loop` (src/song_queue.py, lines 202-204). -/
def SongQueue.toggle_song_loop (s : QState) : QState :=
  { s with loopSong := !s.loopSong }

/-- The "has work" invariant of the availability event: set exactly when the
pending list is non-empty. -/
def flagInv (s : QState) : Prop := s.songAvailable = true ↔ s.songs ≠ []

instance (s : QState) : Decidable (flagInv s) := by
  unfold flagInv; infer_instance

/-! ### Helper lemmas -/

theorem safe_pipe_send_ok (p : Chan) (v : SentVal) (hp : p.health ≠ .otherError) :
    ∃ b : Option Bool, safe_pipe_send p v = .ok b := by
  cases hh : p.health with
  | healthy => exact ⟨none, by simp [safe_pipe_send, hh]⟩
  | brokenPipe => exact ⟨some false, by simp [safe_pipe_send, hh]⟩
  | otherError => exact absurd hh hp

theorem handleUrl_hit (ytdl : Ytdl) (s : WorkerState) (src : StepSource)
    (url : Url) (p : Chan) (v : SentVal)
    (hv : lookupA s.cache url = some v) (hp : p.health ≠ .otherError) :
    handleUrl ytdl s src url (some p) = .ok ⟨s, src, none, some (p, v)⟩ := by
  obtain ⟨b, hb⟩ := safe_pipe_send_ok p v hp
  simp [handleUrl, hv, hb]

theorem handleUrl_hit_bg (ytdl : Ytdl) (s : WorkerState) (src : StepSource)
    (url : Url) (v : SentVal) (hv : lookupA s.cache url = some v) :
    handleUrl ytdl s src url none = .ok ⟨s, src, none, none⟩ := by
  simp [handleUrl, hv]

theorem handleUrl_miss (ytdl : Ytdl) (s : WorkerState) (src : StepSource)
    (url : Url) (p : Chan)
    (hv : lookupA s.cache url = none) (hp : p.health ≠ .otherError) :
    handleUrl ytdl s src url (some p) =
      .ok ⟨{ s with cache := insertA s.cache url (cacheEntry ytdl url) },
           src, some url, some (p, some (Song.ofUrl ytdl url))⟩ := by
  obtain ⟨b, hb⟩ := safe_pipe_send_ok p (some (Song.ofUrl ytdl url)) hp
  simp [handleUrl, hv, hb, cacheEntry]

theorem handleUrl_miss_bg (ytdl : Ytdl) (s : WorkerState) (src : StepSource)
    (url : Url) (hv : lookupA s.cache url = none) :
    handleUrl ytdl s src url none =
      .ok ⟨{ s with cache := insertA s.cache url (cacheEntry ytdl url) },
           src, some url, none⟩ := by
  simp [handleUrl, hv, cacheEntry]

theorem handleUrl_source (ytdl : Ytdl) (s : WorkerState) (src : StepSource)
    (url : Url) (pipe : Option Chan) (r : StepResult)
    (h : handleUrl ytdl s src url pipe = .ok r) : r.source = src := by
  cases hl : lookupA s.cache url with
  | some v =>
    cases pipe with
    | some p =>
      cases hh : p.health with
      | otherError => simp [handleUrl, hl, safe_pipe_send, hh] at h
      | healthy =>
        rw [handleUrl_hit ytdl s src url p v hl (by simp [hh])] at h
        cases h; rfl
      | brokenPipe =>
        rw [handleUrl_hit ytdl s src url p v hl (by simp [hh])] at h
        cases h; rfl
    | none =>
      rw [handleUrl_hit_bg ytdl s src url v hl] at h
      cases h; rfl
  | none =>
    cases pipe with
    | some p =>
      cases hh : p.health with
      | otherError => simp [handleUrl, hl, safe_pipe_send, hh] at h
      | healthy =>
        rw [handleUrl_miss ytdl s src url p hl (by simp [hh])] at h
        cases h; rfl
      | brokenPipe =>
        rw [handleUrl_miss ytdl s src url p hl (by simp [hh])] at h
        cases h; rfl
    | none =>
      rw [handleUrl_miss_bg ytdl s src url hl] at h
      cases h; rfl

theorem ofUrl_stream_none_of_downloadError (ytdl : Ytdl) (url : Url)
    (h : ytdl url.trim = .downloadError) : (Song.ofUrl ytdl url).stream = none := by
  simp [Song.ofUrl, get_metadata_from_url, h, emptyMetadict]

theorem popIdx_length {α : Type} (l : List α) (i : Nat) (x : α) (l' : List α)
    (h : popIdx l i = some (x, l')) : l'.length + 1 = l.length := by
  induction l generalizing i x l' with
  | nil => cases h
  | cons y ys ih =>
    cases i with
    | zero => cases h; simp
    | succ n =>
      unfold popIdx at h
      cases hp : popIdx ys n with
      | none => rw [hp] at h; cases h
      | some p =>
        rw [hp] at h
        simp only [Option.map_some'] at h
        cases h
        simpa using ih n p.1 p.2 hp

/-! ### C1: worker dequeue priority discipline -/

/-- **C1.** In one worker iteration, a background request is dequeued only if
the priority queue was found empty; the worker clears the availability event
and parks exactly when both queues were found empty; and a pending priority
request is always the one taken. -/
theorem c1_worker_dequeue_discipline (ytdl : Ytdl) (s : WorkerState)
    (r : StepResult) (h : SongCache.stepWorker ytdl s = .ok r) :
    (r.source = .background → s.priorityQueue = []) ∧
    (r.source = .parked ↔ s.priorityQueue = [] ∧ s.urlQueue = []) ∧
    (r.source = .parked → r.state.songAvailable = false) ∧
    (s.priorityQueue ≠ [] → r.source = .prio) := by
  obtain ⟨pq, uq, fl, ca⟩ := s
  cases pq with
  | cons hd rest =>
    obtain ⟨url, pipe⟩ := hd
    have h' : handleUrl ytdl ⟨rest, uq, fl, ca⟩ .prio url (some pipe) = .ok r := h
    have hsrc := handleUrl_source _ _ _ _ _ _ h'
    refine ⟨fun hb => ?_, ⟨fun hpk => ?_, ?_⟩, fun hpk => ?_, fun _ => hsrc⟩
    · rw [hsrc] at hb; cases hb
    · rw [hsrc] at hpk; cases hpk
    · rintro ⟨h1, h2⟩; cases h1
    · rw [hsrc] at hpk; cases hpk
  | nil =>
    cases uq with
    | cons url rest =>
      have h' : handleUrl ytdl ⟨[], rest, fl, ca⟩ .background url none = .ok r := h
      have hsrc := handleUrl_source _ _ _ _ _ _ h'
      refine ⟨fun _ => rfl, ⟨fun hpk => ?_, ?_⟩, fun hpk => ?_, fun hne => ?_⟩
      · rw [hsrc] at hpk; cases hpk
      · rintro ⟨h1, h2⟩; cases h2
      · rw [hsrc] at hpk; cases hpk
      · exact absurd rfl hne
    | nil =>
      have h' : Except.ok (⟨⟨[], [], false, ca⟩, .parked, none, none⟩ : StepResult)
          = .ok r := h
      cases h'
      exact ⟨fun _ => rfl, ⟨fun _ => ⟨rfl, rfl⟩, fun _ => rfl⟩, fun _ => rfl,
        fun hne => absurd rfl hne⟩

/-- Witness for C1: a worker that finds both queues empty parks with the
availability event cleared. -/
theorem c1_worker_dequeue_discipline_witness :
    (⟨⟨[], [], false, []⟩, .parked, none, none⟩ : StepResult).state.songAvailable
      = false :=
  (c1_worker_dequeue_discipline (fun _ => .downloadError) ⟨[], [], true, []⟩
    ⟨⟨[], [], false, []⟩, .parked, none, none⟩ rfl).2.2.1 rfl

/-! ### C2: cache hits answer without the resolver; priority resolution is idempotent -/

/-- **C2.** First part: a worker that dequeues a priority request for a
cache-resident reference delivers the cached value and does not invoke the
resolver (the state, in particular the cache, is unchanged). Second part: two
consecutive priority requests for the same uncached reference cause exactly
one resolver invocation, and the second delivery equals the value the first
request left in the cache. -/
theorem c2_cache_hit_idempotent :
    (∀ (ytdl : Ytdl) (s : WorkerState) (url : Url) (p : Chan)
        (rest : List (Url × Chan)) (v : SentVal),
        s.priorityQueue = (url, p) :: rest →
        lookupA s.cache url = some v →
        p.health ≠ .otherError →
        SongCache.stepWorker ytdl s =
          .ok ⟨{ s with priorityQueue := rest }, .prio, none, some (p, v)⟩) ∧
    (∀ (ytdl : Ytdl) (url : Url) (c1 c2 : Chan) (rest : List (Url × Chan))
        (bg : List Url) (fl : Bool) (cache : List (Url × SentVal)),
        lookupA cache url = none →
        c1.health ≠ .otherError → c2.health ≠ .otherError →
        ∃ r1 r2 : StepResult,
          SongCache.stepWorker ytdl ⟨(url, c1) :: (url, c2) :: rest, bg, fl, cache⟩
            = .ok r1 ∧
          SongCache.stepWorker ytdl r1.state = .ok r2 ∧
          r1.resolverCalled = some url ∧
          r2.resolverCalled = none ∧
          ∃ v : SentVal, lookupA r1.state.cache url = some v ∧
            r2.sent = some (c2, v)) := by
  constructor
  · intro ytdl s url p rest v hq hv hp
    obtain ⟨pq, uq, fl, ca⟩ := s
    simp only at hq hv
    subst hq
    exact handleUrl_hit ytdl ⟨rest, uq, fl, ca⟩ .prio url p v hv hp
  · intro ytdl url c1 c2 rest bg fl cache hmiss h1 h2
    refine ⟨⟨⟨(url, c2) :: rest, bg, fl, insertA cache url (cacheEntry ytdl url)⟩,
        .prio, some url, some (c1, some (Song.ofUrl ytdl url))⟩,
      ⟨⟨rest, bg, fl, insertA cache url (cacheEntry ytdl url)⟩, .prio, none,
        some (c2, cacheEntry ytdl url)⟩, ?_, ?_, rfl, rfl,
      cacheEntry ytdl url, lookupA_insertA_self cache url _, rfl⟩
    · exact handleUrl_miss ytdl ⟨(url, c2) :: rest, bg, fl, cache⟩ .prio url c1 hmiss h1
    · exact handleUrl_hit ytdl ⟨rest, bg, fl, insertA cache url (cacheEntry ytdl url)⟩
        .prio url c2 (cacheEntry ytdl url) (lookupA_insertA_self cache url _) h2

/-- Witness for C2: a hit on a tombstoned entry is answered from the cache
(first part), and two back-to-back priority requests for the uncached url
`"u"` resolve it exactly once (second part). -/
theorem c2_cache_hit_idempotent_witness :
    (SongCache.stepWorker (fun _ => .downloadError)
        ⟨[("u", ⟨0, .healthy⟩)], [], true, [("u", none)]⟩ =
      .ok ⟨⟨[], [], true, [("u", none)]⟩, .prio, none, some (⟨0, .healthy⟩, none)⟩) ∧
    (∃ r1 r2 : StepResult,
      SongCache.stepWorker (fun _ => .downloadError)
          ⟨[("u", ⟨0, .healthy⟩), ("u", ⟨1, .brokenPipe⟩)], [], true, []⟩ = .ok r1 ∧
      SongCache.stepWorker (fun _ => .downloadError) r1.state = .ok r2 ∧
      r1.resolverCalled = some "u" ∧
      r2.resolverCalled = none ∧
      ∃ v : SentVal, lookupA r1.state.cache "u" = some v ∧
        r2.sent = some (⟨1, .brokenPipe⟩, v)) :=
  ⟨c2_cache_hit_idempotent.1 (fun _ => .downloadError)
      ⟨[("u", ⟨0, .healthy⟩)], [], true, [("u", none)]⟩ "u" ⟨0, .healthy⟩ [] none
      rfl rfl (by decide),
   c2_cache_hit_idempotent.2 (fun _ => .downloadError) "u" ⟨0, .healthy⟩
      ⟨1, .brokenPipe⟩ [] [] true [] rfl (by decide) (by decide)⟩

/-! ### C4: failed resolution becomes a tombstone, not an exception -/

/-- **C4.** A priority request for an uncached reference whose resolution
fails — the resolver raises `DownloadError`, or no playable stream is found —
completes the worker iteration normally (no exception reaches the requester)
and records the tombstone `None` for that reference in the cache. -/
theorem c4_resolution_failure_tombstone (ytdl : Ytdl) (s : WorkerState)
    (url : Url) (p : Chan) (rest : List (Url × Chan))
    (hq : s.priorityQueue = (url, p) :: rest)
    (hmiss : lookupA s.cache url = none)
    (hfail : ytdl url.trim = .downloadError ∨ (Song.ofUrl ytdl url).stream = none)
    (hp : p.health ≠ .otherError) :
    ∃ r : StepResult, SongCache.stepWorker ytdl s = .ok r ∧
      lookupA r.state.cache url = some none := by
  obtain ⟨pq, uq, fl, ca⟩ := s
  simp only at hq hmiss
  subst hq
  have hstream : (Song.ofUrl ytdl url).stream = none := by
    rcases hfail with h | h
    · exact ofUrl_stream_none_of_downloadError ytdl url h
    · exact h
  refine ⟨⟨⟨rest, uq, fl, insertA ca url (cacheEntry ytdl url)⟩, .prio, some url,
      some (p, some (Song.ofUrl ytdl url))⟩, ?_, ?_⟩
  · exact handleUrl_miss ytdl ⟨rest, uq, fl, ca⟩ .prio url p hmiss hp
  · simp only [lookupA_insertA_self]
    simp [cacheEntry, hstream]

/-- Witness for C4: a reference on which the resolver raises `DownloadError`
is tombstoned without crashing the worker. -/
theorem c4_resolution_failure_tombstone_witness :
    ∃ r : StepResult,
      SongCache.stepWorker (fun _ => .downloadError)
          ⟨[("bad", ⟨0, .healthy⟩)], [], true, []⟩ = .ok r ∧
      lookupA r.state.cache "bad" = some none :=
  c4_resolution_failure_tombstone (fun _ => .downloadError)
    ⟨[("bad", ⟨0, .healthy⟩)], [], true, []⟩ "bad" ⟨0, .healthy⟩ []
    rfl rfl (Or.inl rfl) (by decide)

/-! ### C10: a failed priority resolution delivers the invalid object, caches None -/

/-- **C10.** For a priority request on an uncached reference that fails to
resolve, the worker sends the invalid `Song` object itself (stream absent)
while storing the tombstone `None` in the cache; a second priority request for
the same reference is answered with `None`, so the two delivered payloads
differ. -/
theorem c10_failed_delivery_asymmetry (ytdl : Ytdl) (url : Url)
    (c1 c2 : Chan) (rest : List (Url × Chan)) (bg : List Url) (fl : Bool)
    (cache : List (Url × SentVal))
    (hmiss : lookupA cache url = none)
    (hfail : (Song.ofUrl ytdl url).stream = none)
    (h1 : c1.health ≠ .otherError) (h2 : c2.health ≠ .otherError) :
    ∃ r1 r2 : StepResult,
      SongCache.stepWorker ytdl ⟨(url, c1) :: (url, c2) :: rest, bg, fl, cache⟩
        = .ok r1 ∧
      SongCache.stepWorker ytdl r1.state = .ok r2 ∧
      r1.sent = some (c1, some (Song.ofUrl ytdl url)) ∧
      lookupA r1.state.cache url = some none ∧
      r2.sent = some (c2, none) ∧
      Option.map Prod.snd r1.sent ≠ Option.map Prod.snd r2.sent := by
  have hentry : cacheEntry ytdl url = none := by simp [cacheEntry, hfail]
  refine ⟨⟨⟨(url, c2) :: rest, bg, fl, insertA cache url (cacheEntry ytdl url)⟩,
      .prio, some url, some (c1, some (Song.ofUrl ytdl url))⟩,
    ⟨⟨rest, bg, fl, insertA cache url (cacheEntry ytdl url)⟩, .prio, none,
      some (c2, cacheEntry ytdl url)⟩, ?_, ?_, rfl, ?_, ?_, ?_⟩
  · exact handleUrl_miss ytdl ⟨(url, c2) :: rest, bg, fl, cache⟩ .prio url c1 hmiss h1
  · exact handleUrl_hit ytdl ⟨rest, bg, fl, insertA cache url (cacheEntry ytdl url)⟩
      .prio url c2 (cacheEntry ytdl url) (lookupA_insertA_self cache url _) h2
  · rw [lookupA_insertA_self, hentry]
  · rw [hentry]
  · rw [hentry]; simp

/-- Witness for C10 at the url `"bad"` with the always-failing resolver. -/
theorem c10_failed_delivery_asymmetry_witness :
    ∃ r1 r2 : StepResult,
      SongCache.stepWorker (fun _ => .downloadError)
          ⟨[("bad", ⟨0, .healthy⟩), ("bad", ⟨1, .healthy⟩)], [], true, []⟩ = .ok r1 ∧
      SongCache.stepWorker (fun _ => .downloadError) r1.state = .ok r2 ∧
      r1.sent = some (⟨0, .healthy⟩,
        some (Song.ofUrl (fun _ => .downloadError) "bad")) ∧
      lookupA r1.state.cache "bad" = some none ∧
      r2.sent = some (⟨1, .healthy⟩, none) ∧
      Option.map Prod.snd r1.sent ≠ Option.map Prod.snd r2.sent :=
  c10_failed_delivery_asymmetry (fun _ => .downloadError) "bad"
    ⟨0, .healthy⟩ ⟨1, .healthy⟩ [] [] true [] rfl rfl (by decide) (by decide)

/-! ### C9: pool size validation -/

/-- **C9.** Constructing the cache with a pool size below 1 raises before any
worker is started; with a pool size of at least 1, construction succeeds and
starts exactly that many workers. -/
theorem c9_pool_size_validation (n : Int) :
    (n < 1 → SongCache.init n = .error "pool_size is too low." ∧
      startedWorkers (SongCache.init n) = 0) ∧
    (1 ≤ n → ∃ c : SongCacheInit, SongCache.init n = .ok c ∧
      (c.pool.length : Int) = n ∧
      startedWorkers (SongCache.init n) = c.pool.length) := by
  constructor
  · intro hlt
    have herr : SongCache.init n = .error "pool_size is too low." := by
      simp [SongCache.init, hlt]
    exact ⟨herr, by simp [startedWorkers, herr]⟩
  · intro hge
    have hnot : ¬ n < 1 := not_lt.mpr hge
    refine ⟨⟨[], [], [], false,
        (List.range n.toNat).map (fun i => "Cache-" ++ toString i)⟩,
      by simp [SongCache.init, hnot], ?_,
      by simp [startedWorkers, SongCache.init, hnot]⟩
    have h0 : (0 : Int) ≤ n := by linarith
    simp [Int.toNat_of_nonneg h0]

/-- Witness for C9: pool size -3 fails construction with no worker started;
pool size 2 starts exactly two workers. -/
theorem c9_pool_size_validation_witness :
    (SongCache.init (-3) = .error "pool_size is too low." ∧
      startedWorkers (SongCache.init (-3)) = 0) ∧
    (∃ c : SongCacheInit, SongCache.init 2 = .ok c ∧ (c.pool.length : Int) = 2 ∧
      startedWorkers (SongCache.init 2) = c.pool.length) :=
  ⟨(c9_pool_size_validation (-3)).1 (by decide),
   (c9_pool_size_validation 2).2 (by decide)⟩

/-! ### C5: which send failures are actually caught -/

/-- **C5 (code bug).** `safe_pipe_send` catches only `BrokenPipeError`
(evaluated here on a pipe whose `send` raises it), while an exception of any
other class raised by `pipe.send` — e.g. `OSError("handle is closed")` on a
locally closed connection — escapes the worker, contradicting the claim and
the function's own docstring that no exception gets through. -/
theorem c5_pipe_send_exception_escapes :
    safe_pipe_send ⟨0, .otherError⟩ none =
      .error "exception other than BrokenPipeError escapes pipe.send" ∧
    safe_pipe_send ⟨0, .brokenPipe⟩ none = .ok (some false) :=
  ⟨rfl, rfl⟩

/-! ### C6: FIFO order of push / non-blocking next -/

/-- **C6.** From an empty non-shuffled queue, pushing A, B, C and calling
`next(block=False)` four times returns A, then B, then C (insertion order),
and then `None` immediately; each successful call removes exactly the element
it returned. -/
theorem c6_fifo_order :
    let res : Resolver := fun _ => ⟨none, none, none, none, none, none, none, none⟩
    let q0 : QState := ⟨[], false, none, none, false, false, []⟩
    let q3 := SongQueue.push (SongQueue.push (SongQueue.push q0 (.str "A") none)
      (.str "B") none) (.str "C") none
    let n1 := SongQueue.next res 0 false false q3
    let n2 := SongQueue.next res 0 false false n1.state
    let n3 := SongQueue.next res 0 false false n2.state
    let n4 := SongQueue.next res 0 false false n3.state
    n1.result = .found (.str "A") none ∧
    n2.result = .found (.str "B") none ∧
    n3.result = .found (.str "C") none ∧
    n4.result = .retNone ∧
    n1.state.songs = [(.str "B", none), (.str "C", none)] ∧
    n2.state.songs = [(.str "C", none)] ∧
    n3.state.songs = [] ∧
    n4.state = n3.state := by
  decide

/-! ### C3: what actually happens when the next candidate is a tombstone -/

/-- **C3 (code bug).** With a single queued reference that resolves to a
tombstone, `next(block=True, extract_song=True)` does not retry: the
`(url, song) = self.extract_song(url)` unpacking of the returned `None`
raises `TypeError` (src/song_queue.py, line 145), crashing the player thread
instead of advancing past the tombstone as the claim (and the code's own
comment) describes. -/
theorem c3_tombstone_crashes_next :
    (SongQueue.next (fun _ => ⟨none, none, none, none, none, none, none, none⟩) 0
        true true ⟨[(.str "bad", none)], true, none, none, false, false, []⟩).result
      = .typeError := by
  decide

/-! ### C7: the availability flag tracks non-emptiness -/

theorem popIdx_some_of_lt {α : Type} (l : List α) (i : Nat) (h : i < l.length) :
    ∃ x l', popIdx l i = some (x, l') := by
  induction l generalizing i with
  | nil => simp at h
  | cons y ys ih =>
    cases i with
    | zero => exact ⟨y, ys, rfl⟩
    | succ n =>
      obtain ⟨x, l', hp⟩ := ih n (by simpa using h)
      exact ⟨x, y :: l', by simp [popIdx, hp]⟩

/-- **C7.** The "has work" event is set exactly when the pending list is
non-empty, and this invariant is preserved by `push`, by any call of `next`,
by `clear`, and by an in-range `del queue[idx]`. -/
theorem c7_flag_invariant (s : QState) (url : UrlVal) (m : Option Song)
    (resolver : Resolver) (pick : Nat) (block extract : Bool) (idx : Nat)
    (h : flagInv s) :
    flagInv (SongQueue.push s url m) ∧
    flagInv (SongQueue.next resolver pick block extract s).state ∧
    flagInv (SongQueue.clear s) ∧
    (idx < s.songs.length → flagInv (SongQueue.delitem s idx)) := by
  refine ⟨?_, ?_, ?_, ?_⟩
  · simp [flagInv, SongQueue.push]
  · obtain ⟨songs, flag, cs, ns, lp, sh, gc⟩ := s
    cases flag with
    | false =>
      cases block
      · simpa [SongQueue.next] using h
      · simpa [SongQueue.next] using h
    | true =>
      cases hp : popIdx songs (if sh then pick % songs.length else 0) with
      | none => simpa [SongQueue.next, hp] using h
      | some pr =>
        obtain ⟨⟨url0, song0⟩, songs'⟩ := pr
        cases extract with
        | false => simp [SongQueue.next, hp, flagInv]
        | true =>
          cases hx : SongQueue.extract_song resolver gc url0 false with
          | mk fst cache' =>
            cases fst with
            | none => simp [SongQueue.next, hp, hx, flagInv]
            | some p2 =>
              obtain ⟨u2, s2⟩ := p2
              simp [SongQueue.next, hp, hx, flagInv]
  · simp [flagInv, SongQueue.clear]
  · intro hlt
    obtain ⟨x, l', hp⟩ := popIdx_some_of_lt s.songs idx hlt
    have hlen := popIdx_length s.songs idx x l' hp
    by_cases hone : s.songs.length = 1
    · have hnil : l' = [] := by
        rw [hone] at hlen
        exact List.length_eq_zero.mp (by omega)
      simp [SongQueue.delitem, hp, flagInv, hone, hnil]
    · have hpos : 0 < s.songs.length := lt_of_le_of_lt (Nat.zero_le idx) hlt
      have hne : s.songs ≠ [] := by
        intro hcon; rw [hcon] at hpos; simp at hpos
      have hl' : l' ≠ [] := by
        intro hcon
        rw [hcon] at hlen
        simp at hlen
        omega
      simp [SongQueue.delitem, hp, flagInv, hone, hl', h.mpr hne]

/-- Witness for C7 at a concrete one-element queue state satisfying the
invariant. -/
theorem c7_flag_invariant_witness :
    flagInv (SongQueue.push
      ⟨[(.str "A", none)], true, none, none, false, false, []⟩ (.str "B") none) ∧
    flagInv ((SongQueue.next (fun _ => ⟨none, none, none, none, none, none, none, none⟩)
      0 false false ⟨[(.str "A", none)], true, none, none, false, false, []⟩).state) ∧
    flagInv (SongQueue.clear ⟨[(.str "A", none)], true, none, none, false, false, []⟩) ∧
    (0 < [((.str "A" : UrlVal), (none : Option Song))].length →
      flagInv (SongQueue.delitem
        ⟨[(.str "A", none)], true, none, none, false, false, []⟩ 0)) :=
  c7_flag_invariant ⟨[(.str "A", none)], true, none, none, false, false, []⟩
    (.str "B") none (fun _ => ⟨none, none, none, none, none, none, none, none⟩)
    0 false false 0 (by decide)

/-! ### C8: what toggling shuffle really does -/

/-- **C8 counterexample.** Toggling shuffle does not leave the pending list
and the next-song slot unchanged: from a state with an empty pending list and
a resolved next-song slot, the toggle grows the list and clears the slot. -/
theorem c8_counterexample :
    ¬ ((SongQueue.toggle_shuffle
          ⟨[], false, none, some (.str "N", none), false, false, []⟩).songs
         = [] ∧
       (SongQueue.toggle_shuffle
          ⟨[], false, none, some (.str "N", none), false, false, []⟩).nextSong
         = some (.str "N", none)) := by
  decide

/-- **C8 (amended).** Toggling shuffle flips the flag and, to invalidate the
pre-resolved pick, clears the next-song slot, appending the slot's old content
to the back of the pending list as a new entry (the whole pair in the
reference position, metadata absent) and setting the availability event; the
entries already pending keep their order, and every other field (current song,
loop flag, cache) is unchanged. -/
theorem c8_toggle_shuffle_effect (s : QState) :
    SongQueue.toggle_shuffle s =
      { s with shuffle := !s.shuffle,
               songs := s.songs ++ [(pyTupleOf s.nextSong, none)],
               songAvailable := true,
               nextSong := none } := rfl

end Siren
